import Mathlib

/-!
Shallow embedding of the creatorpilot-api gateway (Python/FastAPI) in Lean 4.

Each definition is translated from a source file of the repository:
  * app/clients/mcp_client.py   — MCPClient.execute
  * app/api/v1/auth/youtube.py  — _build_google_auth_url, _validate_state,
                                  youtube_auth_start, the pending-state store
  * app/api/v1/channel.py       — get_channel_stats, get_top_video
  * app/api/v1/execute.py       — execute route
  * app/api/v1/user.py          — get_user_status
  * app/middleware/request_id.py — RequestIDMiddleware.dispatch
  * app/middleware/security_headers.py — SecurityHeadersMiddleware.dispatch

Effectful boundaries (the HTTP exchange with MCP, the random CSRF token,
the random request UUID) are made explicit inputs, so every function is a
pure Lean function of the request data plus the observed environment.
JSON documents are modelled by the inductive `Json`; Python dict/truthiness
semantics are modelled by `dataGet` / `truthy`.
-/

/-- JSON values, as returned by response.json() in the Python source.
Numbers are modelled as rationals. -/
inductive Json where
  | null : Json
  | bool (b : Bool) : Json
  | num (q : ℚ) : Json
  | str (s : String) : Json
  | arr (xs : List Json) : Json
  | obj (kvs : List (String × Json)) : Json

/-- Lookup of a key in a JSON object field list (first match; Python dicts
have unique keys, so this coincides with dict lookup). -/
def jsonLookup : List (String × Json) → String → Option Json
  | [], _ => none
  | (k, v) :: rest, key => if k = key then some v else jsonLookup rest key

/-- Python `data.get(key)` on a JSON value: `none` when the key is absent
or the value is not an object. -/
def dataGet (j : Json) (key : String) : Option Json :=
  match j with
  | .obj kvs => jsonLookup kvs key
  | _ => none

/-- Python truthiness of a JSON value (`bool(x)`): None, False, 0, the empty
string, the empty list and the empty dict are falsy. -/
def truthy : Json → Bool
  | .null => false
  | .bool b => b
  | .num q => q ≠ 0
  | .str s => s ≠ ""
  | .arr xs => ¬ xs.isEmpty
  | .obj kvs => ¬ kvs.isEmpty

mutual
/-- Python repr() of a JSON-shaped value (used by str() on containers).
Numeric repr is approximated; no claim depends on the repr of numbers. -/
def pyRepr : Json → String
  | .null => "None"
  | .bool true => "True"
  | .bool false => "False"
  | .num q => if q.den = 1 then toString q.num else toString q.num ++ "/" ++ toString q.den
  | .str s => "\x27" ++ s ++ "\x27"
  | .arr xs => "[" ++ pyReprList xs ++ "]"
  | .obj kvs => "\x7b" ++ pyReprKvs kvs ++ "\x7d"

/-- Comma-separated repr of the elements of a Python list. -/
def pyReprList : List Json → String
  | [] => ""
  | [x] => pyRepr x
  | x :: rest => pyRepr x ++ ", " ++ pyReprList rest

/-- Comma-separated repr of the entries of a Python dict. -/
def pyReprKvs : List (String × Json) → String
  | [] => ""
  | [(k, v)] => "\x27" ++ k ++ "\x27: " ++ pyRepr v
  | (k, v) :: rest => "\x27" ++ k ++ "\x27: " ++ pyRepr v ++ ", " ++ pyReprKvs rest
end

/-- Python str() of a JSON-shaped value: a plain string for str, repr otherwise. -/
def pyStr : Json → String
  | .str s => s
  | j => pyRepr j

/-- Rendering of the configured timeout inside an f-string
(`f"... after {self.timeout} seconds"`). Python would print a float;
the integral case is rendered as `n.0` like Python does. -/
def pyNumStr (q : ℚ) : String :=
  if q.den = 1 then toString q.num ++ ".0" else toString q.num ++ "/" ++ toString q.den

/-- Outcome of one outbound HTTP exchange, as observed by the caller.
`response` carries the HTTP status, the string httpx would use for the
HTTPStatusError raised by raise_for_status at that response (only relevant
when the status is not 2xx), and the parsed JSON body.
`timeout` is an httpx.TimeoutException, `transportError` any other
httpx transport failure; each carries its str() rendering. -/
inductive HttpResult where
  | response (status : Nat) (statusErrStr : String) (body : Json) : HttpResult
  | timeout (excStr : String) : HttpResult
  | transportError (excStr : String) : HttpResult

/-- The ExecuteResponse pydantic model (app/schemas/response.py).
Optional dict-valued fields keep their Json object. -/
structure ExecuteResponse where
  answer : String
  confidence : ℚ
  tools_used : List String
  content_type : Option String
  tool_outputs : Option Json
  metadata : Option Json
  success : Option Bool
  error : Option Json

/-- Result of MCPClient.execute: a parsed response, an MCPClientError
(carrying its message), or an exception that the client does not catch
(e.g. a pydantic validation error or an AttributeError), which propagates
to the route handler. -/
inductive ExecOutcome where
  | ok (r : ExecuteResponse) : ExecOutcome
  | clientError (msg : String) : ExecOutcome
  | pyError (msg : String) : ExecOutcome

/-- Pydantic coercion of a value passed for the `answer : str` field. -/
def asStr : Json → Option String
  | .str s => some s
  | _ => none

/-- Pydantic coercion for `confidence : float` (bounds checked separately). -/
def asNum : Json → Option ℚ
  | .num q => some q
  | _ => none

/-- Pydantic coercion for `tools_used : List[str]`. -/
def asStrList : Json → Option (List String)
  | .arr xs => xs.mapM asStr
  | _ => none

/-- Pydantic coercion for `content_type : Optional[str]`. -/
def asOptStr : Json → Option (Option String)
  | .null => some none
  | .str s => some (some s)
  | _ => none

/-- Pydantic coercion for an `Optional[Dict[str, Any]]` field. -/
def asOptObj : Json → Option (Option Json)
  | .null => some none
  | .obj kvs => some (some (.obj kvs))
  | _ => none

/-- Pydantic construction of an ExecuteResponse from the Python values the
client passes; `none` models a pydantic ValidationError (which
MCPClient.execute does not catch). The confidence field carries the
declared bounds ge=0, le=1. -/
def mkExecuteResponse (answer confidence tools_used content_type tool_outputs
    metadata : Json) (success : Option Bool) (error : Json) :
    Option ExecuteResponse := do
  let a ← asStr answer
  let c ← asNum confidence
  if c < 0 ∨ 1 < c then none else
  let ts ← asStrList tools_used
  let ct ← asOptStr content_type
  let to2 ← asOptObj tool_outputs
  let md ← asOptObj metadata
  let er ← asOptObj error
  some ⟨a, c, ts, ct, to2, md, success, er⟩

/-- The upstream error object read by MCPClient.execute:
`error = data.get("error", {})`. -/
def upstreamError (body : Json) : Json :=
  (dataGet body "error").getD (.obj [])

/-- The plan-limit test of MCPClient.execute:
`error_code = error.get("code", "") if isinstance(error, dict) else ""`
followed by `error_code == "PLAN_LIMIT_REACHED"`. -/
def planLimitCode (body : Json) : Bool :=
  let errorCode : Json :=
    match upstreamError body with
    | .obj _ => (dataGet (upstreamError body) "code").getD (.str "")
    | _ => .str ""
  match errorCode with
  | .str s => s = "PLAN_LIMIT_REACHED"
  | _ => false

/-- MCPClient.execute (app/clients/mcp_client.py, lines 26-114), as a function
of the configured timeout and the observed HTTP exchange.

Control flow of the source: raise_for_status() runs BEFORE the body is
inspected, so a non-2xx status raises httpx.HTTPStatusError, which the
`except httpx.HTTPError` clause converts to MCPClientError — the
PLAN_LIMIT_REACHED special case is only reachable on a 2xx status.
MCPClientError raised in the success-flag branch is not an httpx error and
propagates out of the try block uncaught by those clauses. -/
def MCPClient.execute (timeoutSecs : ℚ) (res : HttpResult) : ExecOutcome :=
  match res with
  | .timeout _ =>
      .clientError ("MCP server request timed out after " ++ pyNumStr timeoutSecs ++ " seconds")
  | .transportError excStr =>
      .clientError ("MCP server request failed: " ++ excStr)
  | .response status statusErrStr body =>
      if status < 200 ∨ 300 ≤ status then
        .clientError ("MCP server request failed: " ++ statusErrStr)
      else
        match body with
        | .obj _ =>
            if ¬ truthy ((dataGet body "success").getD (.bool false)) then
              if planLimitCode body then
                match mkExecuteResponse
                    ((dataGet (upstreamError body) "message").getD
                      (.str "Plan limit reached"))
                    (.num 0) (.arr []) .null .null
                    ((dataGet body "metadata").getD .null)
                    (some false) (upstreamError body) with
                | some r => .ok r
                | none => .pyError "pydantic ValidationError"
              else
                .clientError ("MCP execution failed: " ++
                  pyStr ((dataGet body "error").getD (.str "Unknown error")))
            else
              let metaDefault := (dataGet body "metadata").getD (.obj [])
              match metaDefault with
              | .obj _ =>
                  let contentVal := (dataGet body "content").getD .null
                  match mkExecuteResponse
                      (if truthy contentVal then contentVal else .str "")
                      ((dataGet metaDefault "confidence").getD (.num 0))
                      ((dataGet body "tools_used").getD (.arr []))
                      ((dataGet body "content_type").getD .null)
                      ((dataGet body "tool_outputs").getD .null)
                      ((dataGet body "metadata").getD .null)
                      (some true) .null with
                  | some r => .ok r
                  | none => .pyError "pydantic ValidationError"
              | _ => .pyError "AttributeError: metadata value has no attribute get"
        | _ => .pyError "AttributeError: response body is not an object"

/-!
OAuth pending-state store and state validation (app/api/v1/auth/youtube.py).

The store `_pending_states: dict[str, str]` is modelled as an association
list with dict semantics (unique keys maintained by the operations; lookup
takes the first match, so the model agrees with a Python dict on any list).
-/

/-- The pending-state store: CSRF state token → user id. -/
abbrev StateStore := List (String × String)

/-- Dict lookup (first match). -/
def dictLookup : StateStore → String → Option String
  | [], _ => none
  | (k, v) :: rest, key => if k = key then some v else dictLookup rest key

/-- Removal of a key from the dict. -/
def dictErase : StateStore → String → StateStore
  | [], _ => []
  | (k, v) :: rest, key =>
      if k = key then dictErase rest key else (k, v) :: dictErase rest key

/-- Python `d[k] = v` on a dict: binds key to value, overwriting any
existing binding. -/
def dictSet (d : StateStore) (key v : String) : StateStore :=
  dictErase d key ++ [(key, v)]

/-- Python `d.pop(k, None)`: the bound value (if any) and the dict with the
key removed. -/
def dictPop (d : StateStore) (key : String) : Option String × StateStore :=
  (dictLookup d key, dictErase d key)

/-- Removal of every occurrence of a pattern from a character list, left to
right — Python str.replace(pat, ""). The fuel argument bounds recursion
(the initial call supplies the list length, which suffices). -/
def replaceDropAux : Nat → List Char → List Char → List Char
  | 0, _, cs => cs
  | _ + 1, _, [] => []
  | fuel + 1, pat, c :: cs =>
      if pat ≠ [] ∧ pat.isPrefixOf (c :: cs) then
        replaceDropAux fuel pat ((c :: cs).drop pat.length)
      else
        c :: replaceDropAux fuel pat cs

/-- Python `s.replace(pat, "")` on character lists. -/
def replaceDrop (pat cs : List Char) : List Char :=
  replaceDropAux cs.length pat cs

/-- Whether a character is an ASCII hexadecimal digit. -/
def isHexChar (c : Char) : Bool :=
  (48 ≤ c.toNat ∧ c.toNat ≤ 57) ∨ (97 ≤ c.toNat ∧ c.toNat ≤ 102) ∨
    (65 ≤ c.toNat ∧ c.toNat ≤ 70)

/-- Numeric value of an ASCII hexadecimal digit. -/
def hexCharVal (c : Char) : Nat :=
  if 48 ≤ c.toNat ∧ c.toNat ≤ 57 then c.toNat - 48
  else if 97 ≤ c.toNat ∧ c.toNat ≤ 102 then c.toNat - 87
  else if 65 ≤ c.toNat ∧ c.toNat ≤ 70 then c.toNat - 55
  else 0

/-- Value of a hexadecimal digit string. -/
def hexVal (cs : List Char) : Nat :=
  cs.foldl (fun acc c => 16 * acc + hexCharVal c) 0

/-- Python `str.strip(chars)` restricted to the brace pair, as used by
uuid.UUID: drops leading and trailing curly-brace characters. -/
def stripBraces (cs : List Char) : List Char :=
  ((cs.dropWhile (fun c => c.toNat = 123 ∨ c.toNat = 125)).reverse.dropWhile
    (fun c => c.toNat = 123 ∨ c.toNat = 125)).reverse

/-- The constructor uuid.UUID(hex=s) of the Python standard library:
removes the prefixes "urn:" and "uuid:" wherever they occur, strips curly
braces at both ends, removes hyphens, and accepts exactly 32 hexadecimal
digits, yielding the 128-bit integer value. (The laxities of the int
literal parser — signs, underscores, a 0x prefix — are not modelled; no
claim exercises them.) Returns the UUID value, or none for a ValueError. -/
def pyUuidParse (s : String) : Option Nat :=
  let cleaned :=
    (replaceDrop "uuid:".data (replaceDrop "urn:".data s.data)
      |> stripBraces).filter (fun c => c ≠ '-')
  if cleaned.length = 32 ∧ cleaned.all isHexChar then some (hexVal cleaned) else none

/-- Split of a character list at the first occurrence of a separator
(Python s.split(sep, 1) when the separator occurs). -/
def splitOnFirst (sep : Char) : List Char → List Char × List Char
  | [] => ([], [])
  | c :: cs =>
      if c = sep then ([], cs)
      else
        let p := splitOnFirst sep cs
        (c :: p.1, p.2)

/-- _validate_state (app/api/v1/auth/youtube.py, lines 89-118): validates and
consumes the callback state parameter. Returns the ValueError message or
the parsed user UUID value, together with the store after the call (the
store is mutated only by the pop). -/
def validateState (state : String) (store : StateStore) :
    Except String Nat × StateStore :=
  if ¬ state.data.contains ':' then
    match pyUuidParse state with
    | some v => (.ok v, store)
    | none => (.error "badly formed hexadecimal UUID string", store)
  else
    let parts := splitOnFirst ':' state.data
    let userIdStr : String := ⟨parts.1⟩
    let stateToken : String := ⟨parts.2⟩
    match pyUuidParse userIdStr with
    | none => (.error "badly formed hexadecimal UUID string", store)
    | some v =>
        match dictPop store stateToken with
        | (none, store2) => (.error "Unknown or expired state token", store2)
        | (some storedUserId, store2) =>
            if storedUserId ≠ userIdStr then
              (.error "State token user_id mismatch", store2)
            else
              (.ok v, store2)

/-- The settings fields consumed by the routes modelled here
(app/config.py). -/
structure Settings where
  mcp_base_url : String
  mcp_timeout : ℚ
  google_client_id : String
  google_client_secret : String
  google_redirect_uri : String
  google_auth_url : String
  youtube_scopes : String

/-- Python str.strip() whitespace stripping (ASCII whitespace). -/
def stripSpaces (s : String) : String :=
  ⟨((s.data.dropWhile Char.isWhitespace).reverse.dropWhile Char.isWhitespace).reverse⟩

/-- Python s.split(sep) for a single-character separator: every maximal
piece between separators, empty pieces included. -/
def splitAllOn (sep : Char) (cs : List Char) : List (List Char) :=
  match cs with
  | [] => [[]]
  | c :: rest =>
      let ps := splitAllOn sep rest
      if c = sep then [] :: ps
      else
        match ps with
        | [] => [[c]]
        | p :: ps2 => (c :: p) :: ps2

/-- The Google OAuth authorization URL, modelled at the granularity of its
query parameters (the source builds the textual URL with urlencode; the
claims speak about the parameters, and urlencode is injective given the
fixed keys). -/
structure GoogleAuthUrl where
  base : String
  client_id : String
  redirect_uri : String
  response_type : String
  scope : String
  access_type : String
  prompt : String
  state : String

/-- _build_google_auth_url (app/api/v1/auth/youtube.py, lines 54-86):
mints the combined state value "user_id:token" from the freshly generated
CSRF token (the token argument models secrets.token_urlsafe(16), a
nonempty URL-safe string), stores token → user_id, and assembles the
authorization URL parameters. -/
def buildGoogleAuthUrl (user_id token : String) (settings : Settings)
    (store : StateStore) : GoogleAuthUrl × StateStore :=
  let stateValue := user_id ++ ":" ++ token
  let store2 := dictSet store token user_id
  let scopes := (splitAllOn ',' settings.youtube_scopes.data).map
    (fun p => stripSpaces ⟨p⟩)
  ({ base := settings.google_auth_url
     client_id := settings.google_client_id
     redirect_uri := settings.google_redirect_uri
     response_type := "code"
     scope := String.intercalate " " scopes
     access_type := "offline"
     prompt := "consent"
     state := stateValue }, store2)

/-- An HTTPException as FastAPI renders it: a status code and a detail. -/
structure HttpExc where
  status : Nat
  detail : String

/-- youtube_auth_start (app/api/v1/auth/youtube.py, lines 121-160): the
GET /auth/youtube/start handler. The token argument is the CSRF token the
handler generates. Returns the 200 JSON payload (the auth_url) or the
raised HTTPException, together with the pending-state store after the
call. -/
def youtube_auth_start (settings : Settings) (user_id token : String)
    (store : StateStore) : Except HttpExc GoogleAuthUrl × StateStore :=
  if settings.google_client_id = "" then
    (.error ⟨500, "Google OAuth is not configured"⟩, store)
  else if settings.google_redirect_uri = "" then
    (.error ⟨500, "Google OAuth redirect URI is not configured"⟩, store)
  else
    match pyUuidParse user_id with
    | none => (.error ⟨400, "Invalid user_id format. Expected UUID."⟩, store)
    | some _ =>
        let r := buildGoogleAuthUrl user_id token settings store
        (.ok r.1, r.2)

/-- Whether a string consists of URL-safe base64 characters, the alphabet
of secrets.token_urlsafe. -/
def isUrlSafeToken (s : String) : Bool :=
  s.data.all (fun c =>
    (65 ≤ c.toNat ∧ c.toNat ≤ 90) ∨ (97 ≤ c.toNat ∧ c.toNat ≤ 122) ∨
      (48 ≤ c.toNat ∧ c.toNat ≤ 57) ∨ c = '-' ∨ c = '_')

/-!
Route handlers (app/api/v1/channel.py, user.py, execute.py) as functions of
the observed MCP exchange, and the middleware stack (app/main.py,
app/middleware/request_id.py, app/middleware/security_headers.py).
-/

/-- What a JSON route handler produces: a 200 JSON body, a raised
HTTPException (rendered by FastAPI with its status and detail), or an
exception the handler does not catch, which propagates out of the router. -/
inductive JsonRouteResult where
  | okJson (body : Json) : JsonRouteResult
  | httpError (e : HttpExc) : JsonRouteResult
  | uncaught (excStr : String) : JsonRouteResult

/-- Python s.rstrip("/"): removal of trailing slash characters. -/
def rstripSlash (s : String) : String :=
  ⟨(s.data.reverse.dropWhile (fun c => c = '/')).reverse⟩

/-- An outbound HTTP request as issued by a route handler: target URL,
query parameters, and the timeout handed to the HTTP client (seconds). -/
structure OutboundRequest where
  url : String
  queryParams : List (String × String)
  timeoutSecs : ℚ

/-- The outbound request built by get_channel_stats (app/api/v1/channel.py,
lines 40-47): uses the configured MCP timeout. -/
def channelStatsRequest (settings : Settings) (user_id period : String) :
    OutboundRequest :=
  { url := rstripSlash settings.mcp_base_url ++ "/channels/" ++ user_id ++ "/stats"
    queryParams := [("period", period)]
    timeoutSecs := settings.mcp_timeout }

/-- get_channel_stats (app/api/v1/channel.py, lines 21-64) given the
observed MCP exchange. A 404 raises HTTPException inside the try block;
HTTPException is neither an httpx.HTTPStatusError nor an
httpx.RequestError, so it propagates to FastAPI and is rendered as 404.
Any other non-2xx status raises httpx.HTTPStatusError via
raise_for_status, caught and surfaced with the same status code; a
transport failure is an httpx.RequestError, surfaced as 503. -/
def get_channel_stats (res : HttpResult) : JsonRouteResult :=
  match res with
  | .response status _ body =>
      if status = 404 then
        .httpError ⟨404, "No connected YouTube channel found"⟩
      else if status < 200 ∨ 300 ≤ status then
        .httpError ⟨status, "Failed to fetch channel stats"⟩
      else
        .okJson body
  | .timeout _ => .httpError ⟨503, "Could not reach analytics service"⟩
  | .transportError _ => .httpError ⟨503, "Could not reach analytics service"⟩

/-- The literal fail-open payload of get_top_video. -/
def topVideoFallback : Json :=
  .obj [("video_id", .null), ("title", .null), ("thumbnail_url", .null),
        ("views", .num 0), ("growth_percentage", .num 0)]

/-- get_top_video (app/api/v1/channel.py, lines 67-106) given the observed
MCP exchange. Only httpx.RequestError (transport failures, timeouts) is
caught and answered with the fallback payload; the httpx.HTTPStatusError
raised by raise_for_status on a non-2xx status is NOT a RequestError, so
it leaves the handler uncaught. -/
def get_top_video (res : HttpResult) : JsonRouteResult :=
  match res with
  | .response status statusErrStr body =>
      if status < 200 ∨ 300 ≤ status then
        .uncaught statusErrStr
      else
        .okJson body
  | .timeout _ => .okJson topVideoFallback
  | .transportError _ => .okJson topVideoFallback

/-- The literal fail-open payload of get_user_status. -/
def userStatusFallback : Json :=
  .obj [("user_plan", .str "free"),
        ("usage", .obj [("used", .num 0), ("limit", .num 3),
                        ("exhausted", .bool false)])]

/-- The outbound request built by get_user_status (app/api/v1/user.py,
lines 32-40): the timeout is the literal 5.0, not the configured MCP
timeout. -/
def userStatusRequest (settings : Settings) (user_id : String) :
    OutboundRequest :=
  { url := rstripSlash settings.mcp_base_url ++ "/api/v1/user/status"
    queryParams := [("user_id", user_id)]
    timeoutSecs := 5 }

/-- get_user_status (app/api/v1/user.py, lines 15-51) given the observed MCP
exchange: `except Exception` catches every failure (non-2xx statuses via
raise_for_status as well as transport errors) and answers 200 with the
fail-open payload. -/
def get_user_status (res : HttpResult) : JsonRouteResult :=
  match res with
  | .response status _ body =>
      if status < 200 ∨ 300 ≤ status then
        .okJson userStatusFallback
      else
        .okJson body
  | .timeout _ => .okJson userStatusFallback
  | .transportError _ => .okJson userStatusFallback

/-- What the execute route produces: the ExecuteResponse as a 200, or a
raised HTTPException. -/
inductive ExecRouteResult where
  | ok (r : ExecuteResponse) : ExecRouteResult
  | httpError (e : HttpExc) : ExecRouteResult

/-- The execute route handler (app/api/v1/execute.py, lines 16-67), given the
configured MCP timeout and the observed MCP exchange: an MCPClientError is
surfaced as HTTP 503 with the error text as detail; any other exception is
caught by the `except Exception` clause and surfaced as HTTP 500 with a
fixed generic detail. -/
def executeRoute (timeoutSecs : ℚ) (res : HttpResult) : ExecRouteResult :=
  match MCPClient.execute timeoutSecs res with
  | .ok r => .ok r
  | .clientError msg => .httpError ⟨503, msg⟩
  | .pyError _ => .httpError ⟨500, "An unexpected error occurred"⟩

/-- An HTTP response at the middleware level: status and headers (the body
is irrelevant to the middleware claims). -/
structure MwResponse where
  status : Nat
  headers : List (String × String)

/-- What flows out of an ASGI layer: a response, or an exception still
propagating. -/
inductive MwResult where
  | resp (r : MwResponse) : MwResult
  | exc (excStr : String) : MwResult

/-- ASCII lowercasing of a header name (HTTP header names are ASCII; the
framework compares header names case-insensitively). -/
def lowerAscii (s : String) : String :=
  ⟨s.data.map (fun c =>
    if 65 ≤ c.toNat ∧ c.toNat ≤ 90 then Char.ofNat (c.toNat + 32) else c)⟩

/-- Case-insensitive header lookup (starlette Headers.get). -/
def headerGet (hs : List (String × String)) (key : String) : Option String :=
  match hs with
  | [] => none
  | (k, v) :: rest =>
      if lowerAscii k = lowerAscii key then some v else headerGet rest key

/-- Case-insensitive header assignment (starlette MutableHeaders): removes
any existing entries for the key and records the new value (the model
appends it; only the relative order of distinct headers differs from the
framework, which lookup cannot observe). -/
def headerSet : List (String × String) → String → String →
    List (String × String)
  | [], key, v => [(key, v)]
  | (k1, v1) :: rest, key, v =>
      if lowerAscii k1 = lowerAscii key then headerSet rest key v
      else (k1, v1) :: headerSet rest key v

/-- The innermost stage under the user middlewares: the router wrapped in
starlette ExceptionMiddleware, which renders a raised HTTPException as a
response with its status code but lets every other exception propagate. -/
def innerApp : JsonRouteResult → MwResult
  | .okJson _ => .resp ⟨200, []⟩
  | .httpError e => .resp ⟨e.status, []⟩
  | .uncaught excStr => .exc excStr

/-- The correlation id chosen by RequestIDMiddleware.dispatch
(app/middleware/request_id.py, lines 33-52):
`request.headers.get(REQUEST_ID_HEADER) or str(uuid.uuid4())` — the
header value when present and nonempty (the `or` discards a falsy empty
string), else the freshly generated UUID. -/
def requestIdOf (reqHeaders : List (String × String)) (freshUuid : String) :
    String :=
  match headerGet reqHeaders "X-Request-ID" with
  | some v => if v = "" then freshUuid else v
  | none => freshUuid

/-- RequestIDMiddleware.dispatch as a transformation of the inner result:
when call_next returns a response, the header is set on it; when the inner
app raises, call_next re-raises (starlette BaseHTTPMiddleware) and dispatch
propagates the exception without touching any response. -/
def requestIDLayer (reqHeaders : List (String × String)) (freshUuid : String) :
    MwResult → MwResult
  | .resp r =>
      .resp ⟨r.status, headerSet r.headers "X-Request-ID"
        (requestIdOf reqHeaders freshUuid)⟩
  | .exc e => .exc e

/-- SecurityHeadersMiddleware.dispatch
(app/middleware/security_headers.py, lines 20-52): sets the five fixed
headers on a returned response; propagates exceptions like every
BaseHTTPMiddleware. -/
def securityHeadersLayer : MwResult → MwResult
  | .resp r =>
      .resp ⟨r.status,
        headerSet
          (headerSet
            (headerSet
              (headerSet
                (headerSet r.headers "X-Content-Type-Options" "nosniff")
                "X-Frame-Options" "DENY")
              "X-XSS-Protection" "1; mode=block")
            "Referrer-Policy" "strict-origin-when-cross-origin")
          "Permissions-Policy" "geolocation=(), microphone=(), camera=()"⟩
  | .exc e => .exc e

/-- The outermost starlette ServerErrorMiddleware: converts a still-raising
exception into a plain 500 response with no custom headers. -/
def serverErrorLayer : MwResult → MwResponse
  | .resp r => r
  | .exc _ => ⟨500, []⟩

/-- The full response path of the application (app/main.py: ServerError →
Security → RequestID → ExceptionMiddleware → router; add_middleware
prepends, so RequestIDMiddleware, added first, sits innermost; the CORS
layer only adds access-control headers for cross-origin requests and is
omitted). -/
def gatewayResponse (reqHeaders : List (String × String)) (freshUuid : String)
    (handlerResult : JsonRouteResult) : MwResponse :=
  serverErrorLayer
    (securityHeadersLayer
      (requestIDLayer reqHeaders freshUuid (innerApp handlerResult)))

/-!
Claim C1 — the PLAN_LIMIT_REACHED pass-through of MCPClient.execute.
-/

/-- A failing MCP body whose error code is PLAN_LIMIT_REACHED. -/
def planLimitBody : Json :=
  .obj [("success", .bool false),
        ("error", .obj [("code", .str "PLAN_LIMIT_REACHED"),
                        ("message", .str "Plan limit reached")])]

/-- Counterexample for C1: the claim asserts the PLAN_LIMIT_REACHED
pass-through also applies when the response fails by a non-2xx HTTP
status. In the code raise_for_status() runs before the body is inspected,
so an HTTP 500 response carrying a PLAN_LIMIT_REACHED error body still
raises MCPClientError — the method does fail. -/
theorem C1_counterexample :
    planLimitCode planLimitBody = true ∧
    MCPClient.execute 30 (.response 500 "Server error 500" planLimitBody) =
      .clientError "MCP server request failed: Server error 500" := by
  constructor <;> rfl

/-- Claim C1 (amended): the PLAN_LIMIT_REACHED pass-through applies only to
responses with a 2xx HTTP status whose boolean success field is absent or
falsy: there, when the upstream error object carries code
PLAN_LIMIT_REACHED, MCPClient.execute does not fail and returns a response
with success=false, confidence=0.0, an empty tools_used list, the upstream
error message as the answer text, and the raw error object attached. In
every other failing case — a 2xx failure body with a different (or absent)
error code, or any non-2xx HTTP status, even one whose body carries
PLAN_LIMIT_REACHED — it raises a client error carrying the upstream error
description. -/
theorem C1_plan_limit_pass_through (t : ℚ) :
    (∀ (status : Nat) (es m : String) (kvs errKvs : List (String × Json)),
      200 ≤ status → status < 300 →
      truthy ((jsonLookup kvs "success").getD (.bool false)) = false →
      jsonLookup kvs "error" = some (.obj errKvs) →
      jsonLookup errKvs "code" = some (.str "PLAN_LIMIT_REACHED") →
      jsonLookup errKvs "message" = some (.str m) →
      (jsonLookup kvs "metadata" = none ∨ jsonLookup kvs "metadata" = some .null ∨
        (∃ mk, jsonLookup kvs "metadata" = some (.obj mk))) →
      ∃ md, MCPClient.execute t (.response status es (.obj kvs)) =
        .ok ⟨m, 0, [], none, none, md, some false, some (.obj errKvs)⟩) ∧
    (∀ (status : Nat) (es : String) (kvs : List (String × Json)),
      200 ≤ status → status < 300 →
      truthy ((jsonLookup kvs "success").getD (.bool false)) = false →
      planLimitCode (.obj kvs) = false →
      MCPClient.execute t (.response status es (.obj kvs)) =
        .clientError ("MCP execution failed: " ++
          pyStr ((jsonLookup kvs "error").getD (.str "Unknown error")))) ∧
    (∀ (status : Nat) (es : String) (body : Json),
      status < 200 ∨ 300 ≤ status →
      MCPClient.execute t (.response status es body) =
        .clientError ("MCP server request failed: " ++ es)) := by
  refine ⟨?_, ?_, ?_⟩
  · intro status es m kvs errKvs h1 h2 hsucc herr hcode hmsg hmeta
    have hst : ¬ (status < 200 ∨ 300 ≤ status) := by omega
    have hplan : planLimitCode (.obj kvs) = true := by
      simp [planLimitCode, upstreamError, dataGet, herr, hcode]
    rcases hmeta with hmd | hmd | ⟨mk, hmd⟩
    · refine ⟨none, ?_⟩
      simp [MCPClient.execute, hst, dataGet, hsucc, hplan, upstreamError, herr,
        hmsg, hmd, mkExecuteResponse, asStr, asNum, asStrList, asOptStr, asOptObj,
        List.mapM.loop, (by norm_num : ¬ ((1:ℚ) < 0))]
    · refine ⟨none, ?_⟩
      simp [MCPClient.execute, hst, dataGet, hsucc, hplan, upstreamError, herr,
        hmsg, hmd, mkExecuteResponse, asStr, asNum, asStrList, asOptStr, asOptObj,
        List.mapM.loop, (by norm_num : ¬ ((1:ℚ) < 0))]
    · refine ⟨some (.obj mk), ?_⟩
      simp [MCPClient.execute, hst, dataGet, hsucc, hplan, upstreamError, herr,
        hmsg, hmd, mkExecuteResponse, asStr, asNum, asStrList, asOptStr, asOptObj,
        List.mapM.loop, (by norm_num : ¬ ((1:ℚ) < 0))]
  · intro status es kvs h1 h2 hsucc hplan
    have hst : ¬ (status < 200 ∨ 300 ≤ status) := by omega
    simp [MCPClient.execute, hst, dataGet, hsucc, hplan]
  · intro status es body hst
    simp [MCPClient.execute, hst]

/-- Witness for C1: a concrete 2xx plan-limit response taken through the
theorem. -/
theorem C1_plan_limit_pass_through_witness :
    ∃ md, MCPClient.execute 30 (.response 200 "ok" planLimitBody) =
      .ok ⟨"Plan limit reached", 0, [], none, none, md, some false,
        some (.obj [("code", .str "PLAN_LIMIT_REACHED"),
                    ("message", .str "Plan limit reached")])⟩ :=
  (C1_plan_limit_pass_through 30).1 200 "ok" "Plan limit reached"
    [("success", .bool false),
     ("error", .obj [("code", .str "PLAN_LIMIT_REACHED"),
                     ("message", .str "Plan limit reached")])]
    [("code", .str "PLAN_LIMIT_REACHED"), ("message", .str "Plan limit reached")]
    (by decide) (by decide) (by rfl) (by rfl) (by rfl) (by rfl) (Or.inl rfl)

/-!
Claim C3 — the success mapping of MCPClient.execute.
-/

/-- Auxiliary: the mapM loop of asStr over a list of JSON strings. -/
theorem mapM_loop_asStr (ts acc : List String) :
    List.mapM.loop asStr (ts.map Json.str) acc = some (acc.reverse ++ ts) := by
  induction ts generalizing acc with
  | nil => simp [List.mapM.loop]
  | cons h t ih => simp [List.mapM.loop, asStr, ih]

/-- Reduction of MCPClient.execute on a 2xx response with a truthy success
field: the result is the pydantic construction over the extracted upstream
fields. -/
theorem execute_2xx_success (t : ℚ) (status : Nat) (es : String)
    (kvs mk : List (String × Json))
    (hst : 200 ≤ status) (hst2 : status < 300)
    (hsucc : truthy ((jsonLookup kvs "success").getD (.bool false)) = true)
    (hm : (jsonLookup kvs "metadata").getD (.obj []) = .obj mk) :
    MCPClient.execute t (.response status es (.obj kvs)) =
      match mkExecuteResponse
          (if truthy ((jsonLookup kvs "content").getD .null)
            then (jsonLookup kvs "content").getD .null else .str "")
          ((jsonLookup mk "confidence").getD (.num 0))
          ((jsonLookup kvs "tools_used").getD (.arr []))
          ((jsonLookup kvs "content_type").getD .null)
          ((jsonLookup kvs "tool_outputs").getD .null)
          ((jsonLookup kvs "metadata").getD .null)
          (some true) .null with
      | some r => ExecOutcome.ok r
      | none => ExecOutcome.pyError "pydantic ValidationError" := by
  have hst3 : ¬ (status < 200 ∨ 300 ≤ status) := by omega
  simp [MCPClient.execute, dataGet, hsucc, hm, hst3]

/-- The answer value built from a present string content field:
`data.get("content") or ""` yields the string itself, the empty string
included. -/
theorem content_answer (a : String) :
    (if truthy (.str a) then Json.str a else .str "") = .str a := by
  by_cases ha : a = "" <;> simp [truthy, ha]

/-- Claim C3: for every successful MCP /execute JSON response (2xx status
with a truthy success field), MCPClient.execute returns a response whose
answer equals the upstream content field (or the empty string if absent),
whose confidence equals the upstream metadata.confidence (or 0.0 if
absent), whose tools_used equals the upstream tools_used (or the empty
list if absent), and which passes the upstream content_type, tool_outputs
and metadata fields through unchanged. Stated for well-typed upstream
fields (string content, string tools, object metadata, confidence within
the declared [0,1] bounds), the shape the pydantic response model
accepts. -/
theorem C3_success_mapping (t : ℚ) (status : Nat) (es : String)
    (kvs : List (String × Json)) (a : String) (conf : ℚ)
    (md : Option (List (String × Json))) (tools : List String)
    (ct : Option String) (touts : Option (List (String × Json)))
    (hst : 200 ≤ status) (hst2 : status < 300)
    (hsucc : truthy ((jsonLookup kvs "success").getD (.bool false)) = true)
    (hcontent : jsonLookup kvs "content" = some (.str a) ∨
      (jsonLookup kvs "content" = none ∧ a = ""))
    (hmeta : (jsonLookup kvs "metadata" = none ∧ md = none ∧ conf = 0) ∨
      (∃ mk, jsonLookup kvs "metadata" = some (.obj mk) ∧ md = some mk ∧
        ((jsonLookup mk "confidence" = none ∧ conf = 0) ∨
          jsonLookup mk "confidence" = some (.num conf))))
    (hconf : 0 ≤ conf ∧ conf ≤ 1)
    (htools : jsonLookup kvs "tools_used" = some (.arr (tools.map .str)) ∨
      (jsonLookup kvs "tools_used" = none ∧ tools = []))
    (hct : ((jsonLookup kvs "content_type" = none ∨
        jsonLookup kvs "content_type" = some .null) ∧ ct = none) ∨
      (∃ s, jsonLookup kvs "content_type" = some (.str s) ∧ ct = some s))
    (htouts : ((jsonLookup kvs "tool_outputs" = none ∨
        jsonLookup kvs "tool_outputs" = some .null) ∧ touts = none) ∨
      (∃ ok, jsonLookup kvs "tool_outputs" = some (.obj ok) ∧ touts = some ok)) :
    MCPClient.execute t (.response status es (.obj kvs)) =
      .ok ⟨a, conf, tools, ct, touts.map Json.obj, md.map Json.obj,
        some true, none⟩ := by
  have hrange : ¬ (conf < 0 ∨ 1 < conf) := by push_neg; exact hconf
  have hans : (if truthy ((jsonLookup kvs "content").getD .null)
      then (jsonLookup kvs "content").getD .null else .str "") = .str a := by
    rcases hcontent with hc | ⟨hc, rfl⟩
    · rw [hc, Option.getD_some, content_answer]
    · simp [hc, truthy]
  rcases hmeta with ⟨hm, rfl, rfl⟩ | ⟨mk, hm, rfl, hcf⟩
  · rw [execute_2xx_success t status es kvs [] hst hst2 hsucc (by simp [hm]),
      hans]
    rcases htools with ht | ⟨ht, rfl⟩ <;>
      rcases hct with ⟨hct1 | hct1, rfl⟩ | ⟨s, hct1, rfl⟩ <;>
      rcases htouts with ⟨hto1 | hto1, rfl⟩ | ⟨ok2, hto1, rfl⟩ <;>
      simp [hm, ht, hct1, hto1, mkExecuteResponse, asStr, asNum, asStrList,
        asOptStr, asOptObj, mapM_loop_asStr, List.mapM.loop, jsonLookup,
        hrange, (by norm_num : ¬ ((1:ℚ) < 0))]
  · rw [execute_2xx_success t status es kvs mk hst hst2 hsucc (by simp [hm]),
      hans]
    rcases hcf with ⟨hcf1, rfl⟩ | hcf1 <;>
      rcases htools with ht | ⟨ht, rfl⟩ <;>
      rcases hct with ⟨hct1 | hct1, rfl⟩ | ⟨s, hct1, rfl⟩ <;>
      rcases htouts with ⟨hto1 | hto1, rfl⟩ | ⟨ok2, hto1, rfl⟩ <;>
      simp [hm, hcf1, ht, hct1, hto1, mkExecuteResponse, asStr, asNum,
        asStrList, asOptStr, asOptObj, mapM_loop_asStr, List.mapM.loop,
        hrange, (by norm_num : ¬ ((1:ℚ) < 0))]

/-- Witness for C3: a fully populated successful upstream response mapped
through the theorem. -/
theorem C3_success_mapping_witness :
    MCPClient.execute 30 (.response 200 "ok"
      (.obj [("success", .bool true), ("content", .str "hello"),
             ("metadata", .obj [("confidence", .num (1/2))]),
             ("tools_used", .arr [.str "fetch_analytics"]),
             ("content_type", .str "analytics"),
             ("tool_outputs", .obj [("views", .num 15420)])])) =
      .ok ⟨"hello", 1/2, ["fetch_analytics"], some "analytics",
        some (.obj [("views", .num 15420)]),
        some (.obj [("confidence", .num (1/2))]), some true, none⟩ :=
  C3_success_mapping 30 200 "ok" _ "hello" (1/2)
    (some [("confidence", .num (1/2))]) ["fetch_analytics"]
    (some "analytics") (some [("views", .num 15420)])
    (by decide) (by decide) (by rfl)
    (Or.inl rfl)
    (Or.inr ⟨_, rfl, rfl, Or.inr rfl⟩)
    (by norm_num)
    (Or.inl rfl)
    (Or.inr ⟨_, rfl, rfl⟩)
    (Or.inr ⟨_, rfl, rfl⟩)

/-!
Claims C4-C7 — route-level error handling.
-/

/-- The HTTP status of the response the framework sends for a route result:
a 200 for a returned JSON body, the HTTPException status, or the plain 500
produced by the outermost server-error handler for an uncaught exception. -/
def routeResponseStatus : JsonRouteResult → Nat
  | .okJson _ => 200
  | .httpError e => e.status
  | .uncaught _ => 500

/-- Counterexample for C4: the claim asserts a non-2xx MCP status is
propagated to the caller with that same status. In the code
raise_for_status raises httpx.HTTPStatusError, which the
`except httpx.RequestError` clause does not catch, so the exception leaves
the handler and the caller receives a generic 500 — an MCP 404 does not
surface as 404. -/
theorem C4_counterexample :
    get_top_video (.response 404 "Client error 404" (.obj [])) =
      .uncaught "Client error 404" ∧
    routeResponseStatus
      (get_top_video (.response 404 "Client error 404" (.obj []))) = 500 := by
  constructor <;> rfl

/-- Claim C4 (amended): GET /api/v1/channel/top-video fails open on
transport-level failures, answering HTTP 200 with the literal fallback
payload; a non-2xx MCP status raises an uncaught httpx.HTTPStatusError,
which surfaces to the caller as a generic HTTP 500 internal error rather
than as the MCP status; a 2xx MCP response is passed through. -/
theorem C4_top_video_fail_open :
    (∀ e, get_top_video (.timeout e) = .okJson topVideoFallback) ∧
    (∀ e, get_top_video (.transportError e) = .okJson topVideoFallback) ∧
    (∀ (status : Nat) (es : String) (body : Json),
      status < 200 ∨ 300 ≤ status →
      get_top_video (.response status es body) = .uncaught es ∧
      routeResponseStatus (get_top_video (.response status es body)) = 500) ∧
    (∀ (status : Nat) (es : String) (body : Json),
      200 ≤ status → status < 300 →
      get_top_video (.response status es body) = .okJson body) := by
  refine ⟨fun e => rfl, fun e => rfl, ?_, ?_⟩
  · intro status es body h
    constructor <;> simp [get_top_video, routeResponseStatus, h]
  · intro status es body h1 h2
    have h : ¬ (status < 200 ∨ 300 ≤ status) := by omega
    simp [get_top_video, h]

/-- Witness for C4: concrete transport failure and concrete MCP 500. -/
theorem C4_top_video_fail_open_witness :
    get_top_video (.timeout "timed out") = .okJson topVideoFallback ∧
    get_top_video (.response 500 "Server error 500" (.obj [])) =
      .uncaught "Server error 500" ∧
    get_top_video (.response 200 "ok" (.obj [("views", .num 7)])) =
      .okJson (.obj [("views", .num 7)]) :=
  ⟨C4_top_video_fail_open.1 "timed out",
   (C4_top_video_fail_open.2.2.1 500 "Server error 500" (.obj [])
     (Or.inr (by decide))).1,
   C4_top_video_fail_open.2.2.2 200 "ok" (.obj [("views", .num 7)])
     (by decide) (by decide)⟩

/-- Claim C5: for every execute request, an MCPClientError from the MCP
client is surfaced as HTTP 503 whose detail is exactly the error text; any
other unexpected exception is surfaced as HTTP 500 with the fixed detail
"An unexpected error occurred"; otherwise the MCP client result is
returned unchanged with HTTP 200. -/
theorem C5_execute_route_error_mapping (t : ℚ) (res : HttpResult) :
    (∀ msg, MCPClient.execute t res = .clientError msg →
      executeRoute t res = .httpError ⟨503, msg⟩) ∧
    (∀ msg, MCPClient.execute t res = .pyError msg →
      executeRoute t res = .httpError ⟨500, "An unexpected error occurred"⟩) ∧
    (∀ r, MCPClient.execute t res = .ok r →
      executeRoute t res = .ok r) := by
  refine ⟨?_, ?_, ?_⟩ <;> intro x h <;> simp [executeRoute, h]

/-- Witness for C5: a refused connection becomes a 503 carrying the client
error text. -/
theorem C5_execute_route_error_mapping_witness :
    executeRoute 30 (.transportError "All connection attempts failed") =
      .httpError ⟨503, "MCP server request failed: All connection attempts failed"⟩ :=
  (C5_execute_route_error_mapping 30
    (.transportError "All connection attempts failed")).1 _ rfl

/-- Claim C6: GET /api/v1/channel/stats surfaces an MCP 404 as 404 with
detail "No connected YouTube channel found", any other non-2xx MCP status
as that same status with detail "Failed to fetch channel stats", a
transport-level failure as 503 "Could not reach analytics service", and
passes a 2xx MCP JSON body through verbatim. -/
theorem C6_channel_stats_proxy :
    (∀ (es : String) (body : Json), get_channel_stats (.response 404 es body) =
      .httpError ⟨404, "No connected YouTube channel found"⟩) ∧
    (∀ (status : Nat) (es : String) (body : Json),
      (status < 200 ∨ 300 ≤ status) → status ≠ 404 →
      get_channel_stats (.response status es body) =
        .httpError ⟨status, "Failed to fetch channel stats"⟩) ∧
    (∀ e, get_channel_stats (.timeout e) =
      .httpError ⟨503, "Could not reach analytics service"⟩) ∧
    (∀ e, get_channel_stats (.transportError e) =
      .httpError ⟨503, "Could not reach analytics service"⟩) ∧
    (∀ (status : Nat) (es : String) (body : Json),
      200 ≤ status → status < 300 →
      get_channel_stats (.response status es body) = .okJson body) := by
  refine ⟨fun es body => rfl, ?_, fun e => rfl, fun e => rfl, ?_⟩
  · intro status es body h h404
    simp [get_channel_stats, h404, h]
  · intro status es body h1 h2
    have h : ¬ (status < 200 ∨ 300 ≤ status) := by omega
    have h404 : status ≠ 404 := by omega
    simp [get_channel_stats, h404, h]

/-- Witness for C6: a concrete MCP 500, and a concrete 200 passthrough. -/
theorem C6_channel_stats_proxy_witness :
    get_channel_stats (.response 500 "Server error 500" (.obj [])) =
      .httpError ⟨500, "Failed to fetch channel stats"⟩ ∧
    get_channel_stats (.response 200 "ok" (.obj [("subscriberCount", .num 9)])) =
      .okJson (.obj [("subscriberCount", .num 9)]) :=
  ⟨C6_channel_stats_proxy.2.1 500 "Server error 500" (.obj [])
     (Or.inr (by decide)) (by decide),
   C6_channel_stats_proxy.2.2.2.2 200 "ok" (.obj [("subscriberCount", .num 9)])
     (by decide) (by decide)⟩

/-- Claim C7: GET /api/v1/user/status calls MCP with a fixed 5-second
timeout independent of the configured MCP timeout; on any failure at all
(non-2xx MCP status or transport error) it answers HTTP 200 with the
literal free-plan fallback payload; on a 2xx MCP response it returns the
MCP JSON body verbatim; it never surfaces an error to the caller. -/
theorem C7_user_status_fail_open :
    (∀ (settings : Settings) (user_id : String),
      (userStatusRequest settings user_id).timeoutSecs = 5) ∧
    (∀ (status : Nat) (es : String) (body : Json),
      status < 200 ∨ 300 ≤ status →
      get_user_status (.response status es body) = .okJson userStatusFallback) ∧
    (∀ e, get_user_status (.timeout e) = .okJson userStatusFallback) ∧
    (∀ e, get_user_status (.transportError e) = .okJson userStatusFallback) ∧
    (∀ (status : Nat) (es : String) (body : Json),
      200 ≤ status → status < 300 →
      get_user_status (.response status es body) = .okJson body) ∧
    (∀ res, ∃ b, get_user_status res = .okJson b) := by
  refine ⟨fun settings user_id => rfl, ?_, fun e => rfl, fun e => rfl, ?_, ?_⟩
  · intro status es body h
    simp [get_user_status, h]
  · intro status es body h1 h2
    have h : ¬ (status < 200 ∨ 300 ≤ status) := by omega
    simp [get_user_status, h]
  · intro res
    match res with
    | .response status es body =>
        by_cases h : status < 200 ∨ 300 ≤ status
        · exact ⟨userStatusFallback, by simp [get_user_status, h]⟩
        · exact ⟨body, by simp [get_user_status, h]⟩
    | .timeout e => exact ⟨userStatusFallback, rfl⟩
    | .transportError e => exact ⟨userStatusFallback, rfl⟩

/-- Witness for C7: the timeout is 5 even when the configured MCP timeout
is 30, and a concrete unreachable-MCP exchange yields the fallback. -/
theorem C7_user_status_fail_open_witness :
    (userStatusRequest
      ⟨"http://context-hub-mcp:8001", 30, "", "", "uri", "auth", "scopes"⟩
      "00000000-0000-0000-0000-000000000001").timeoutSecs = 5 ∧
    get_user_status (.response 500 "Server error 500" (.obj [])) =
      .okJson userStatusFallback :=
  ⟨C7_user_status_fail_open.1 _ _,
   C7_user_status_fail_open.2.1 500 "Server error 500" (.obj [])
     (Or.inr (by decide))⟩

/-!
Claims C2, C9, C10 — OAuth state round trip and redemption.
-/

/-- A key just erased is no longer found. -/
theorem dictLookup_erase_self (d : StateStore) (k : String) :
    dictLookup (dictErase d k) k = none := by
  induction d with
  | nil => rfl
  | cons kv rest ih =>
      obtain ⟨k1, v1⟩ := kv
      by_cases h : k1 = k <;> simp [dictErase, dictLookup, h, ih]

/-- Lookup walks past a block that does not contain the key. -/
theorem dictLookup_append_right (d1 d2 : StateStore) (k : String)
    (h : dictLookup d1 k = none) :
    dictLookup (d1 ++ d2) k = dictLookup d2 k := by
  induction d1 with
  | nil => rfl
  | cons kv rest ih =>
      obtain ⟨k1, v1⟩ := kv
      by_cases hk : k1 = k
      · simp [dictLookup, hk] at h
      · simp [dictLookup, hk] at h ⊢
        exact ih h

/-- Erasure distributes over append. -/
theorem dictErase_append (d1 d2 : StateStore) (k : String) :
    dictErase (d1 ++ d2) k = dictErase d1 k ++ dictErase d2 k := by
  induction d1 with
  | nil => rfl
  | cons kv rest ih =>
      obtain ⟨k1, v1⟩ := kv
      by_cases h : k1 = k <;> simp [dictErase, h, ih]

/-- Erasure is idempotent. -/
theorem dictErase_idem (d : StateStore) (k : String) :
    dictErase (dictErase d k) k = dictErase d k := by
  induction d with
  | nil => rfl
  | cons kv rest ih =>
      obtain ⟨k1, v1⟩ := kv
      by_cases h : k1 = k <;> simp [dictErase, h, ih]

/-- Popping a key right after setting it returns the value just stored and
leaves the store without the key. -/
theorem dictPop_set (d : StateStore) (k v : String) :
    dictPop (dictSet d k v) k = (some v, dictErase d k) := by
  unfold dictPop dictSet
  rw [dictLookup_append_right _ _ _ (dictLookup_erase_self d k),
    dictErase_append, dictErase_idem]
  simp [dictLookup, dictErase]

/-- A character known to be absent by the Bool contains test is not a
member. -/
theorem not_mem_of_contains_false {c : Char} {cs : List Char}
    (h : cs.contains c = false) : c ∉ cs := by
  intro hmem
  rw [show cs.contains c = cs.elem c from rfl,
    List.elem_eq_true_of_mem hmem] at h
  cases h

/-- A list with a colon consed in the middle contains a colon. -/
theorem contains_append_colon (u t : List Char) :
    (u ++ ':' :: t).contains ':' = true :=
  List.elem_eq_true_of_mem
    (List.mem_append_right u (List.mem_cons_self ':' t))

/-- Splitting at the first colon of `u ++ ":" ++ t` recovers `(u, t)` when
`u` is colon-free. -/
theorem splitOnFirst_append_colon (u t : List Char)
    (hu : ':' ∉ u) :
    splitOnFirst ':' (u ++ ':' :: t) = (u, t) := by
  induction u with
  | nil => simp [splitOnFirst]
  | cons c cs ih =>
      have hc : ¬ (c = ':') := fun hcc => hu (hcc ▸ List.mem_cons_self c cs)
      have hcs : ':' ∉ cs := fun hmem => hu (List.mem_cons_of_mem c hmem)
      simp [splitOnFirst, hc, ih hcs]

/-- Reduction of validateState on a combined value `u ++ ":" ++ token` with
a colon-free user part: the split recovers the two parts. -/
theorem validateState_split (u token : String) (store : StateStore)
    (hcolon : u.data.contains ':' = false) :
    validateState (u ++ ":" ++ token) store =
      (match pyUuidParse u with
       | none => (.error "badly formed hexadecimal UUID string", store)
       | some v =>
          match dictPop store token with
          | (none, store2) => (.error "Unknown or expired state token", store2)
          | (some storedUserId, store2) =>
              if storedUserId ≠ u then
                (.error "State token user_id mismatch", store2)
              else
                (.ok v, store2)) := by
  have hdata : (u ++ ":" ++ token).data = u.data ++ ':' :: token.data := by
    simp [String.data_append]
  have hcontains : (u ++ ":" ++ token).data.contains ':' = true := by
    rw [hdata]
    exact contains_append_colon u.data token.data
  have hsplit : splitOnFirst ':' (u ++ ":" ++ token).data =
      (u.data, token.data) := by
    rw [hdata]
    exact splitOnFirst_append_colon u.data token.data
      (not_mem_of_contains_false hcolon)
  unfold validateState
  rw [hcontains, hsplit]
  simp

/-- Claim C2: for a user id string accepted by the UUID parser and free of
colons (every canonical UUID is both), with Google client ID and redirect
URI configured, GET /auth/youtube/start succeeds and returns an auth URL
whose state parameter is the user id followed by a colon and the freshly
generated CSRF token (a nonempty URL-safe string, by construction of
secrets.token_urlsafe); redeeming that state value once succeeds and
yields that user, and redeeming it a second time fails with the
unknown-or-expired state condition. -/
theorem C2_oauth_state_roundtrip (settings : Settings)
    (u token : String) (store : StateStore) (vNat : Nat)
    (hcid : settings.google_client_id ≠ "")
    (hruri : settings.google_redirect_uri ≠ "")
    (huuid : pyUuidParse u = some vNat)
    (hcolon : u.data.contains ':' = false)
    (htok : isUrlSafeToken token = true)
    (htne : token ≠ "") :
    ∃ authUrl,
      youtube_auth_start settings u token store =
        (.ok authUrl, dictSet store token u) ∧
      authUrl.state = u ++ ":" ++ token ∧
      validateState (u ++ ":" ++ token) (dictSet store token u) =
        (.ok vNat, dictErase store token) ∧
      (validateState (u ++ ":" ++ token) (dictErase store token)).1 =
        .error "Unknown or expired state token" := by
  refine ⟨(buildGoogleAuthUrl u token settings store).1, ?_, ?_, ?_, ?_⟩
  · simp [youtube_auth_start, hcid, hruri, huuid, buildGoogleAuthUrl]
  · rfl
  · rw [validateState_split u token _ hcolon, huuid, dictPop_set]
    simp
  · rw [validateState_split u token _ hcolon, huuid]
    unfold dictPop
    rw [dictLookup_erase_self]

/-- Witness for C2: the concrete canonical UUID user and a concrete token
taken through the round trip. -/
theorem C2_oauth_state_roundtrip_witness :
    ∃ authUrl,
      youtube_auth_start
        ⟨"http://context-hub-mcp:8001", 30, "client-id", "secret",
         "http://localhost:3000/auth/youtube/callback",
         "https://accounts.google.com/o/oauth2/v2/auth", "scope1, scope2"⟩
        "00000000-0000-0000-0000-000000000001" "tok_ABC123" [] =
        (.ok authUrl, dictSet [] "tok_ABC123"
          "00000000-0000-0000-0000-000000000001") ∧
      authUrl.state = "00000000-0000-0000-0000-000000000001" ++ ":" ++
        "tok_ABC123" ∧
      validateState ("00000000-0000-0000-0000-000000000001" ++ ":" ++
          "tok_ABC123")
          (dictSet [] "tok_ABC123" "00000000-0000-0000-0000-000000000001") =
        (.ok 1, dictErase [] "tok_ABC123") ∧
      (validateState ("00000000-0000-0000-0000-000000000001" ++ ":" ++
          "tok_ABC123") (dictErase [] "tok_ABC123")).1 =
        .error "Unknown or expired state token" :=
  C2_oauth_state_roundtrip _ _ _ [] 1
    (by decide) (by decide) (by rfl) (by rfl) (by rfl) (by decide)

/-- Claim C9: a callback state value containing no colon is treated as a
bare legacy user id with no pending-state lookup: when it parses as a UUID
the validation succeeds with that user and the pending-state store is
neither consulted nor changed (the store is universally quantified and
returned untouched), and when it does not parse the validation is a hard
ValueError failure, which aborts the flow. -/
theorem C9_legacy_state_no_colon (state : String) (store : StateStore)
    (h : state.data.contains ':' = false) :
    (∀ v, pyUuidParse state = some v →
      validateState state store = (.ok v, store)) ∧
    (pyUuidParse state = none →
      validateState state store =
        (.error "badly formed hexadecimal UUID string", store)) := by
  have hnm : ':' ∉ state.data := not_mem_of_contains_false h
  constructor
  · intro v hv
    simp [validateState, h, hnm, hv]
  · intro hv
    simp [validateState, h, hnm, hv]

/-- Witness for C9: the placeholder UUID is accepted against an empty
store, and a non-UUID value is a hard failure. -/
theorem C9_legacy_state_no_colon_witness :
    validateState "00000000-0000-0000-0000-000000000001" [] = (.ok 1, []) ∧
    validateState "not-a-uuid" [] =
      (.error "badly formed hexadecimal UUID string", []) :=
  ⟨(C9_legacy_state_no_colon "00000000-0000-0000-0000-000000000001" []
      (by rfl)).1 1 (by rfl),
   (C9_legacy_state_no_colon "not-a-uuid" [] (by rfl)).2 (by rfl)⟩

/-- Claim C10: state redemption is not atomic on the mismatch error. If the
state value is `u:t` where token t is stored but bound to a user id
different from u (u itself a valid colon-free UUID string), the call fails
with the mismatch error AND t has nevertheless been popped from the store,
so a subsequent redemption of any well-formed state carrying token t fails
with the unknown-or-expired condition — a wrong user id cancels the
legitimate pending flow. -/
theorem C10_mismatch_consumes_token (u u2 t : String) (store : StateStore)
    (vNat : Nat)
    (hu : pyUuidParse u = some vNat)
    (hucolon : u.data.contains ':' = false)
    (hstored : dictLookup store t = some u2)
    (hne : u2 ≠ u) :
    validateState (u ++ ":" ++ t) store =
      (.error "State token user_id mismatch", dictErase store t) ∧
    (∀ (u3 : String) (v3 : Nat), pyUuidParse u3 = some v3 →
      u3.data.contains ':' = false →
      (validateState (u3 ++ ":" ++ t) (dictErase store t)).1 =
        .error "Unknown or expired state token") := by
  constructor
  · rw [validateState_split u t store hucolon, hu]
    unfold dictPop
    rw [hstored]
    simp [hne]
  · intro u3 v3 hu3 hu3colon
    rw [validateState_split u3 t _ hu3colon, hu3]
    unfold dictPop
    rw [dictLookup_erase_self]

/-- Witness for C10: token tok pends for user ...0002; redeeming with user
...0001 fails with the mismatch error and consumes tok, after which the
legitimate user ...0002 can no longer redeem it. -/
theorem C10_mismatch_consumes_token_witness :
    validateState
        ("00000000-0000-0000-0000-000000000001" ++ ":" ++ "tok")
        [("tok", "00000000-0000-0000-0000-000000000002")] =
      (.error "State token user_id mismatch",
        dictErase [("tok", "00000000-0000-0000-0000-000000000002")] "tok") ∧
    (validateState
        ("00000000-0000-0000-0000-000000000002" ++ ":" ++ "tok")
        (dictErase [("tok", "00000000-0000-0000-0000-000000000002")] "tok")).1 =
      .error "Unknown or expired state token" :=
  ⟨(C10_mismatch_consumes_token "00000000-0000-0000-0000-000000000001"
      "00000000-0000-0000-0000-000000000002" "tok" _ 1
      (by rfl) (by rfl) (by rfl) (by decide)).1,
   (C10_mismatch_consumes_token "00000000-0000-0000-0000-000000000001"
      "00000000-0000-0000-0000-000000000002" "tok" _ 1
      (by rfl) (by rfl) (by rfl) (by decide)).2
      "00000000-0000-0000-0000-000000000002" 2 (by rfl) (by rfl)⟩

/-!
Claim C8 — the X-Request-ID response header.
-/

/-- Counterexample for C8: the claim asserts every response — including
responses to failed handlers — carries X-Request-ID. When a handler lets a
non-HTTPException exception escape (here: the real top-video handler on an
MCP 500, which leaks an httpx.HTTPStatusError), call_next re-raises inside
RequestIDMiddleware.dispatch, the header-setting line never runs, and the
plain 500 produced by the outermost server-error handler carries no
X-Request-ID header. -/
theorem C8_counterexample :
    headerGet
      (gatewayResponse [] "3f1d2c54-0000-0000-0000-000000000000"
        (get_top_video (.response 500 "Server error 500" (.obj [])))).headers
      "X-Request-ID" = none := by
  rfl

/-- Claim C8 (amended): every response produced through the handler
response path — normal returns and HTTPException error responses alike —
carries an X-Request-ID header: when the inbound request supplied a
nonempty X-Request-ID its value is echoed verbatim, and otherwise the
header carries the freshly generated UUID. Responses synthesized by the
outermost server-error handler for an exception that escapes the router
(a failure mode that exists, see the counterexample) do not pass through
the middleware header-setting step. An inbound X-Request-ID supplied with
an empty value is also replaced by a fresh UUID, because the source uses
Python `or` on the header value. -/
theorem C8_request_id_header (reqHeaders : List (String × String))
    (freshUuid : String) (h : JsonRouteResult)
    (hnr : ∀ e, h ≠ .uncaught e) :
    headerGet (gatewayResponse reqHeaders freshUuid h).headers "X-Request-ID" =
      some (requestIdOf reqHeaders freshUuid) ∧
    (∀ v, headerGet reqHeaders "X-Request-ID" = some v → v ≠ "" →
      requestIdOf reqHeaders freshUuid = v) ∧
    (headerGet reqHeaders "X-Request-ID" = none →
      requestIdOf reqHeaders freshUuid = freshUuid) := by
  refine ⟨?_, ?_, ?_⟩
  · cases h with
    | okJson b => rfl
    | httpError e => rfl
    | uncaught e => exact absurd rfl (hnr e)
  · intro v hv hne
    simp [requestIdOf, hv, hne]
  · intro hv
    simp [requestIdOf, hv]

/-- Witness for C8: a supplied header is echoed; an absent header yields
the fresh UUID. -/
theorem C8_request_id_header_witness :
    headerGet
      (gatewayResponse [("X-Request-ID", "abc-123")] "fresh-uuid"
        (.okJson (.obj []))).headers "X-Request-ID" =
      some (requestIdOf [("X-Request-ID", "abc-123")] "fresh-uuid") ∧
    requestIdOf [("X-Request-ID", "abc-123")] "fresh-uuid" = "abc-123" ∧
    requestIdOf [] "fresh-uuid" = "fresh-uuid" :=
  ⟨(C8_request_id_header [("X-Request-ID", "abc-123")] "fresh-uuid"
      (.okJson (.obj [])) (fun e h => JsonRouteResult.noConfusion h)).1,
   (C8_request_id_header [("X-Request-ID", "abc-123")] "fresh-uuid"
      (.okJson (.obj [])) (fun e h => JsonRouteResult.noConfusion h)).2.1
      "abc-123" rfl (by decide),
   (C8_request_id_header [] "fresh-uuid"
      (.okJson (.obj [])) (fun e h => JsonRouteResult.noConfusion h)).2.2 rfl⟩
